import Mathlib

/-!
# Verification of the Ouk Chaktrang game server account/progression logic

Shallow embedding of `src/server.js`. The file holds three route-handler
variants separated by markers:

* the in-memory variant (lines 1-310): `users` array, handlers for
  `/api/auth/register`, `/api/auth/login`, `/api/user/profile/:userId`,
  `/api/user/update/:userId`, `/api/game/result`;
* the MongoDB variant (lines 311-559): `findOneAndUpdate` with `$set` for
  profile update, a `/api/user/stats` endpoint, `delete userResponse.passwordHash`;
* the SQL variant (lines 560-1086): dialect-branched SQL handlers.

JavaScript numbers are embedded as `Int` (all arithmetic in the handlers is
integer-valued and far below 2^53, so no overflow modelling is needed);
JS objects that are consulted key-by-key are embedded as association lists
`List (String × ...)`.
-/

namespace OukChaktrang

/-- The per-user record created by the register handler of the in-memory
variant (`newUser`, server.js lines 127-155).  `achievements`, `stats` and
`createdDate` are never read or written by any handler after creation and are
omitted; `lastLogin` is a timestamp embedded as `Int`. -/
structure Account where
  userId : String
  username : String
  email : String
  passwordHash : String
  displayName : String
  avatarUrl : String
  coins : Int
  diamonds : Int
  totalWins : Int
  totalLosses : Int
  totalDraws : Int
  currentLevel : Int
  highestLevel : Int
  experiencePoints : Int
  guildName : String
  country : String
  isDeveloper : Bool
  isPremium : Bool
  lastLogin : Int
  deriving DecidableEq, Repr

/-- Body of a `POST /api/game/result` request in the in-memory variant
(server.js line 273): `{ userId, win, level, coinsEarned, diamondsEarned }`.
The `userId` lookup is handled outside (the handler 404s when absent), so the
per-account update takes the remaining four fields. -/
structure GameResult where
  win : Bool
  level : Int
  coinsEarned : Int
  diamondsEarned : Int
  deriving DecidableEq, Repr

/-- The per-account state update of `POST /api/game/result` in the in-memory
variant (server.js lines 280-299), translated statement by statement:
win/loss bookkeeping and experience, then unconditional currency addition,
then the level block guarded by `win && level > 0`. -/
def applyResult (u : Account) (r : GameResult) : Account :=
  let u1 :=
    if r.win then
      { u with totalWins := u.totalWins + 1,
               experiencePoints := u.experiencePoints + 100 }
    else
      { u with totalLosses := u.totalLosses + 1,
               experiencePoints := u.experiencePoints + 25 }
  let u2 := { u1 with coins := u1.coins + r.coinsEarned,
                      diamonds := u1.diamonds + r.diamondsEarned }
  if r.win = true ∧ 0 < r.level then
    let u3 :=
      if r.level = u2.currentLevel ∧ r.level < 50 then
        { u2 with currentLevel := u2.currentLevel + 1 }
      else u2
    if u3.highestLevel < r.level then { u3 with highestLevel := r.level }
    else u3
  else u2

/-- Body of a `POST /api/auth/register` request (server.js line 108):
`{ username, email, password, displayName }`.  A missing field arrives as
`undefined`, which is falsy exactly like the empty string under the handler's
`if (!username || ...)` checks, so absent fields are embedded as `""`. -/
structure RegisterReq where
  username : String
  email : String
  password : String
  displayName : String
  deriving DecidableEq, Repr

/-- Failure responses of the register handler (status 400 branches,
server.js lines 110-121). -/
inductive RegisterError where
  | missingFields
  | emailTaken
  | usernameTaken
  deriving DecidableEq, Repr

/-- Handler `POST /api/auth/register` of the in-memory variant (server.js
lines 106-157): presence checks, duplicate-email then duplicate-username
checks over the `users` array, then construction of `newUser` with its
literal defaults.  The bcrypt hash, the generated `userId` and the current
time are environment-supplied and passed as parameters `hash`, `freshId`,
`now`. -/
def register (users : List Account) (r : RegisterReq) (hash freshId : String)
    (now : Int) : Except RegisterError Account :=
  if r.username = "" ∨ r.email = "" ∨ r.password = "" then
    .error .missingFields
  else if users.any (fun u => u.email = r.email) then
    .error .emailTaken
  else if users.any (fun u => u.username = r.username) then
    .error .usernameTaken
  else
    .ok { userId := freshId
          username := r.username
          email := r.email
          passwordHash := hash
          displayName := if r.displayName = "" then r.username else r.displayName
          avatarUrl := "default_avatar"
          coins := 1000
          diamonds := 10
          totalWins := 0
          totalLosses := 0
          totalDraws := 0
          currentLevel := 1
          highestLevel := 1
          experiencePoints := 0
          guildName := ""
          country := "Cambodia"
          isDeveloper := false
          isPremium := false
          lastLogin := now }

/-- The sole account mutation of a successful `POST /api/auth/login`
(server.js line 71): `user.lastLogin = new Date()`. -/
def loginTouch (u : Account) (now : Int) : Account :=
  { u with lastLogin := now }

/-- First value for a key in an association list (a JS object consulted
key-by-key). -/
def getKey (kvs : List (String × String)) (k : String) : Option String :=
  match kvs with
  | [] => none
  | (k', v) :: rest => if k' = k then some v else getKey rest k

/-- Handler `PUT /api/user/update/:userId` of the in-memory variant (server.js
lines 237-244): the handler reads exactly the four keys `displayName`,
`avatarUrl`, `country`, `guildName` from the request body and assigns each
only when truthy (a present non-empty string); every other key of the body
is never read.  The body is an arbitrary JS object, embedded as an
association list. -/
def updateProfile (u : Account) (body : List (String × String)) : Account :=
  let u :=
    match getKey body "displayName" with
    | some v => if v = "" then u else { u with displayName := v }
    | none => u
  let u :=
    match getKey body "avatarUrl" with
    | some v => if v = "" then u else { u with avatarUrl := v }
    | none => u
  let u :=
    match getKey body "country" with
    | some v => if v = "" then u else { u with country := v }
    | none => u
  match getKey body "guildName" with
  | some v => if v = "" then u else { u with guildName := v }
  | none => u

/-- Keys of the `user` object in the login response literal (server.js
lines 75-97). -/
def loginResponseKeys : List String :=
  ["userId", "username", "email", "displayName", "avatarUrl", "coins",
   "diamonds", "totalWins", "totalLosses", "totalDraws", "currentLevel",
   "highestLevel", "experiencePoints", "guildName", "country", "isDeveloper",
   "isPremium", "achievements", "stats", "createdDate", "lastLogin"]

/-- Keys of the `user` object in the register response literal (server.js
lines 168-190). -/
def registerResponseKeys : List String :=
  ["userId", "username", "email", "displayName", "avatarUrl", "coins",
   "diamonds", "totalWins", "totalLosses", "totalDraws", "currentLevel",
   "highestLevel", "experiencePoints", "guildName", "country", "isDeveloper",
   "isPremium", "achievements", "stats", "createdDate", "lastLogin"]

/-- Keys of the profile response literal (server.js lines 205-227). -/
def profileResponseKeys : List String :=
  ["userId", "username", "email", "displayName", "avatarUrl", "coins",
   "diamonds", "totalWins", "totalLosses", "totalDraws", "currentLevel",
   "highestLevel", "experiencePoints", "guildName", "country", "isDeveloper",
   "isPremium", "achievements", "stats", "createdDate", "lastLogin"]

/-- Keys of the profile-update response literal (server.js lines 246-268). -/
def updateResponseKeys : List String :=
  ["userId", "username", "email", "displayName", "avatarUrl", "coins",
   "diamonds", "totalWins", "totalLosses", "totalDraws", "currentLevel",
   "highestLevel", "experiencePoints", "guildName", "country", "isDeveloper",
   "isPremium", "achievements", "stats", "createdDate", "lastLogin"]

/-! ## MongoDB variant: documents as association lists

The Mongo variant manipulates user documents generically (`$set`, `delete`,
`key in user`, `user[key] = stats[key]`), so its documents are embedded as
association lists over a JS value type. -/

/-- A JS value as it occurs in the Mongo variant's documents: string, number
or boolean. -/
inductive JVal where
  | s (v : String)
  | n (v : Int)
  | b (v : Bool)
  deriving DecidableEq, Repr

/-- A user document of the Mongo variant. -/
abbrev Doc := List (String × JVal)

/-- First value for a key in a document. -/
def docGet (d : Doc) (k : String) : Option JVal :=
  match d with
  | [] => none
  | (k', v) :: rest => if k' = k then some v else docGet rest k

/-- JS `key in user`: the key exists on the document. -/
def docHas (d : Doc) (k : String) : Bool :=
  (docGet d k).isSome

/-- Assignment `user[key] = v` / Mongo `$set` of one key: overwrite the key
where present, append it otherwise. -/
def docSet (d : Doc) (k : String) (v : JVal) : Doc :=
  match d with
  | [] => [(k, v)]
  | (k', w) :: rest => if k' = k then (k, v) :: rest else (k', w) :: docSet rest k v

/-- JS `delete obj[key]` (used as `delete userResponse.passwordHash`,
server.js line 405, and the `password_hash` rest-destructuring of the SQL
login handler, line 863). -/
def docDelete (d : Doc) (k : String) : Doc :=
  d.filter (fun kv => kv.1 ≠ k)

/-- Handler `PUT /api/user/update/:userId` of the Mongo variant (server.js
lines 487-494): `findOneAndUpdate(_, { $set: updates })` applies every
key of the caller-supplied body to the document, adding keys that are
missing. -/
def mongoUpdateProfile (d : Doc) (updates : Doc) : Doc :=
  updates.foldl (fun acc kv => docSet acc kv.1 kv.2) d

/-- The update loop of `POST /api/user/stats` in the Mongo variant
(server.js lines 520-524): for each key of `stats`, if the key exists on
the user document it is overwritten with the caller-supplied value, with no
allow-list and no range validation. -/
def applyStats (d : Doc) (stats : Doc) : Doc :=
  stats.foldl (fun acc kv => if docHas acc kv.1 then docSet acc kv.1 kv.2 else acc) d

/-- Handler `POST /api/user/stats` of the Mongo variant at the request
level: `const { userId, ...stats } = req.body` (server.js line 512) removes
the `userId` property from the body — it only selects the account — and the
update loop then runs over the remaining `stats` keys. -/
def statsHandlerUpdate (d : Doc) (body : Doc) : Doc :=
  applyStats d (docDelete body "userId")

/-- A user document with the `userSchema` defaults of the Mongo variant
(server.js lines 329-357; dates and the nested `stats`/`achievements`
subdocuments are omitted as no claim touches them). -/
def mongoDefaultDoc (userId username email passwordHash displayName : String) : Doc :=
  [("userId", .s userId), ("username", .s username), ("email", .s email),
   ("passwordHash", .s passwordHash), ("displayName", .s displayName),
   ("avatarUrl", .s "default_avatar"), ("country", .s "Cambodia"),
   ("coins", .n 1000), ("diamonds", .n 10), ("totalWins", .n 0),
   ("totalLosses", .n 0), ("totalDraws", .n 0), ("currentLevel", .n 1),
   ("highestLevel", .n 1), ("experiencePoints", .n 0), ("guildName", .s ""),
   ("isDeveloper", .b false), ("isPremium", .b false)]

/-! ## Session tokens

The token scheme delegates to the `jsonwebtoken` library (`jwt.sign` at
server.js lines 64-68 with `expiresIn: '7d'`, `jwt.verify` in `verifyToken`,
lines 535-549); the library's internals are not part of this repository. -/

/-- Modelled from the spec: the payload a signed token embeds —
`accountId`, `email`, `issuedAt`, `expiresAt = issuedAt + TTL` (spec 4.2);
the library source carrying this structure is not in the repository. -/
structure TokenPayload where
  accountId : String
  email : String
  issuedAt : Nat
  expiresAt : Nat
  deriving DecidableEq, Repr

/-- Modelled from the spec: a wire token is a payload plus a signature over
it; a token whose payload part does not parse is represented with
`payload = none` (a malformed payload). -/
structure Token where
  payload : Option TokenPayload
  sig : Nat
  deriving DecidableEq, Repr

/-- Modelled from the spec: the token TTL, a fixed configuration constant —
7 days in seconds, matching `expiresIn: '7d'`. -/
def tokenTTL : Nat := 7 * 24 * 60 * 60

/-- Modelled from the spec: the keyed signature over a payload.  Its only
properties used below are determinism and that validation recomputes and
compares it, so any concrete keyed digest serves; an iterated polynomial
digest of the secret and the payload fields stands in for the JWT HMAC. -/
def tokenMac (secret : String) (p : TokenPayload) : Nat :=
  (secret ++ "|" ++ p.accountId ++ "|" ++ p.email).foldl
    (fun a c => a * 131 + c.toNat) (p.issuedAt * 31 + p.expiresAt)

/-- Modelled from the spec: `issue(accountId, email)` produces a signed token
embedding the payload with `expiresAt = issuedAt + TTL` (spec 4.2). -/
def issue (secret accountId email : String) (now : Nat) : Token :=
  let p : TokenPayload :=
    { accountId := accountId, email := email, issuedAt := now,
      expiresAt := now + tokenTTL }
  { payload := some p, sig := tokenMac secret p }

/-- Failures of token validation (spec 7). -/
inductive TokenError where
  | invalidToken
  | expired
  deriving DecidableEq, Repr

/-- Modelled from the spec: `validate(token)` fails closed — a malformed
payload or signature mismatch yields `InvalidToken`, a clock past
`expiresAt` yields `Expired`, otherwise the embedded `accountId` is
returned (spec 4.2). -/
def validate (secret : String) (t : Token) (now : Nat) :
    Except TokenError String :=
  match t.payload with
  | none => .error .invalidToken
  | some p =>
    if t.sig ≠ tokenMac secret p then .error .invalidToken
    else if p.expiresAt < now then .error .expired
    else .ok p.accountId

/-! ## Concrete objects used in counterexamples and witnesses -/

/-- A concrete valid registration request. -/
def regReq0 : RegisterReq :=
  { username := "alice", email := "alice@example.com", password := "pw123",
    displayName := "" }

/-- The account `register` creates from `regReq0` on an empty user list
(certified reachable in the theorems below). -/
def acct0 : Account :=
  { userId := "user-1", username := "alice", email := "alice@example.com",
    passwordHash := "h0", displayName := "alice", avatarUrl := "default_avatar",
    coins := 1000, diamonds := 10, totalWins := 0, totalLosses := 0,
    totalDraws := 0, currentLevel := 1, highestLevel := 1,
    experiencePoints := 0, guildName := "", country := "Cambodia",
    isDeveloper := false, isPremium := false, lastLogin := 0 }

/-- Outcome of a game as the spec describes it. -/
inductive Outcome where
  | win
  | loss
  | draw
  deriving DecidableEq, Repr

/-- How an outcome reaches the game-result endpoint: the request body
carries only the boolean `win` field (server.js line 273), so a win is
submitted as `true` and a loss or a draw as `false` — the API has no third
value. -/
def Outcome.asWinFlag : Outcome → Bool
  | .win => true
  | .loss => false
  | .draw => false

/-! ## Helper lemmas -/

/-- Profile update touches none of the fields outside its four-key
allow-list. -/
theorem updateProfile_frame (u : Account) (body : List (String × String)) :
    (updateProfile u body).userId = u.userId ∧
    (updateProfile u body).username = u.username ∧
    (updateProfile u body).email = u.email ∧
    (updateProfile u body).passwordHash = u.passwordHash ∧
    (updateProfile u body).coins = u.coins ∧
    (updateProfile u body).diamonds = u.diamonds ∧
    (updateProfile u body).totalWins = u.totalWins ∧
    (updateProfile u body).totalLosses = u.totalLosses ∧
    (updateProfile u body).totalDraws = u.totalDraws ∧
    (updateProfile u body).currentLevel = u.currentLevel ∧
    (updateProfile u body).highestLevel = u.highestLevel ∧
    (updateProfile u body).experiencePoints = u.experiencePoints ∧
    (updateProfile u body).isDeveloper = u.isDeveloper ∧
    (updateProfile u body).isPremium = u.isPremium ∧
    (updateProfile u body).lastLogin = u.lastLogin := by
  unfold updateProfile
  rcases getKey body "displayName" with _ | v1 <;>
    rcases getKey body "avatarUrl" with _ | v2 <;>
      rcases getKey body "country" with _ | v3 <;>
        rcases getKey body "guildName" with _ | v4 <;>
          simp <;> split_ifs <;> simp

/-- Closed form of the game-result update: each field of the result as a
function of the previous account and the request. -/
theorem applyResult_eq (u : Account) (r : GameResult) :
    applyResult u r =
      { u with
        totalWins := u.totalWins + (if r.win then 1 else 0),
        totalLosses := u.totalLosses + (if r.win then 0 else 1),
        experiencePoints := u.experiencePoints + (if r.win then 100 else 25),
        coins := u.coins + r.coinsEarned,
        diamonds := u.diamonds + r.diamondsEarned,
        currentLevel :=
          if r.win = true ∧ 0 < r.level ∧ r.level = u.currentLevel ∧ r.level < 50 then
            u.currentLevel + 1
          else u.currentLevel,
        highestLevel :=
          if r.win = true ∧ 0 < r.level ∧ u.highestLevel < r.level then r.level
          else u.highestLevel } := by
  unfold applyResult
  by_cases hw : r.win = true <;>
    by_cases hl : (0:Int) < r.level <;>
      by_cases hceq : r.level = u.currentLevel <;>
        by_cases hclt : r.level < (50:Int) <;>
          by_cases hh : u.highestLevel < r.level <;>
            simp_all <;>
              split_ifs <;> simp_all

/-- The game-result update never lowers `highestLevel` and keeps
`currentLevel` at most 50 when it was. -/
theorem applyResult_level_bounds (u : Account) (r : GameResult) :
    u.highestLevel ≤ (applyResult u r).highestLevel ∧
    (u.currentLevel ≤ 50 → (applyResult u r).currentLevel ≤ 50) := by
  rw [applyResult_eq]
  refine ⟨?_, fun _ => ?_⟩ <;> (try simp) <;> (try split_ifs) <;> omega

/-- An assignment is observable through lookup of the assigned key. -/
theorem docGet_docSet (d : Doc) (k : String) (v : JVal) :
    docGet (docSet d k v) k = some v := by
  induction d with
  | nil => simp [docSet, docGet]
  | cons kv rest ih =>
    obtain ⟨k1, v1⟩ := kv
    by_cases hk : k1 = k
    · simp [docSet, docGet, hk]
    · simp only [docSet]
      rw [if_neg hk]
      simp only [docGet]
      rw [if_neg hk]
      exact ih

/-- Deleting a key makes lookup of that key fail. -/
theorem docGet_docDelete (d : Doc) (k : String) :
    docGet (docDelete d k) k = none := by
  induction d with
  | nil => rfl
  | cons kv rest ih =>
    by_cases hk : kv.1 = k <;> simp [docDelete, docGet, hk] at ih ⊢ <;>
      simpa [docGet, hk] using ih

/-- A concrete Mongo user document with schema defaults. -/
def mongoDoc0 : Doc :=
  mongoDefaultDoc "user-2" "bora" "bora@example.com" "h1" "bora"

/-! ## Claims -/

/-- C1: the claim that `highestLevel ≥ currentLevel` survives every
operation is false on the code.  Counterexample: the freshly registered
account `acct0` (certified here as the output of `register` on an empty
user list) with `currentLevel = highestLevel = 1`; a Win at
`levelPlayed = 1` increments `currentLevel` to 2, but `highestLevel` stays
1 because the code only raises it when `levelPlayed > highestLevel`
(server.js lines 296-298), which fails at `1 > 1`. -/
theorem c1_counterexample :
    register [] regReq0 "h0" "user-1" 0 = Except.ok acct0 ∧
    (applyResult acct0
        { win := true, level := 1, coinsEarned := 50, diamondsEarned := 1 }).currentLevel = 2 ∧
    (applyResult acct0
        { win := true, level := 1, coinsEarned := 50, diamondsEarned := 1 }).highestLevel = 1 := by
  refine ⟨?_, ?_, ?_⟩ <;> rfl

/-- C1 amended: registration establishes `highestLevel = currentLevel = 1`,
login and profile update leave both levels unchanged, and the game-result
update preserves only the weaker invariant
`highestLevel ≥ currentLevel - 1` — a Win at the frontier level can leave
`highestLevel` exactly one below `currentLevel`. -/
theorem c1_amended (users : List Account) (rq : RegisterReq)
    (hsh fid : String) (t : Int) (a u : Account) (now : Int)
    (body : List (String × String)) (r : GameResult)
    (hreg : register users rq hsh fid t = Except.ok a)
    (hinv : u.currentLevel - 1 ≤ u.highestLevel) :
    a.highestLevel = 1 ∧ a.currentLevel = 1 ∧
    (loginTouch u now).highestLevel = u.highestLevel ∧
    (loginTouch u now).currentLevel = u.currentLevel ∧
    (updateProfile u body).highestLevel = u.highestLevel ∧
    (updateProfile u body).currentLevel = u.currentLevel ∧
    (applyResult u r).currentLevel - 1 ≤ (applyResult u r).highestLevel := by
  obtain ⟨-, -, -, -, -, -, -, -, -, hcl, hhl, -, -, -, -⟩ :=
    updateProfile_frame u body
  have ha : a.highestLevel = 1 ∧ a.currentLevel = 1 := by
    unfold register at hreg
    split_ifs at hreg <;>
      first
        | exact Except.noConfusion hreg
        | (injection hreg with h; subst h; exact ⟨rfl, rfl⟩)
  refine ⟨ha.1, ha.2, rfl, rfl, hhl, hcl, ?_⟩
  rw [applyResult_eq]
  simp only []
  split_ifs <;> simp_all <;> omega

/-- C1 amended, witnessed on concrete inputs. -/
theorem c1_amended_witness :
    acct0.highestLevel = 1 ∧ acct0.currentLevel = 1 ∧
    (loginTouch acct0 7).highestLevel = acct0.highestLevel ∧
    (loginTouch acct0 7).currentLevel = acct0.currentLevel ∧
    (updateProfile acct0 [("displayName", "Neo")]).highestLevel = acct0.highestLevel ∧
    (updateProfile acct0 [("displayName", "Neo")]).currentLevel = acct0.currentLevel ∧
    (applyResult acct0
        { win := true, level := 1, coinsEarned := 50, diamondsEarned := 1 }).currentLevel - 1 ≤
      (applyResult acct0
        { win := true, level := 1, coinsEarned := 50, diamondsEarned := 1 }).highestLevel :=
  c1_amended [] regReq0 "h0" "user-1" 0 acct0 acct0 7
    [("displayName", "Neo")]
    { win := true, level := 1, coinsEarned := 50, diamondsEarned := 1 }
    (by rfl) (by decide)

/-- C2: the claim that a negative `coinsEarned` or `diamondsEarned` is
rejected with `InvalidOutcome` and leaves the ledger unchanged is the
spec's stated intent, but the code has no validation at all: the handler
adds the caller-supplied amounts unconditionally (server.js lines 289-290).
At `coinsEarned = -10` the account's coins drop from 1000 to 990 and the
submission is still counted as a played game. -/
theorem c2_negative_earn_applied :
    (applyResult acct0
        { win := false, level := 0, coinsEarned := -10, diamondsEarned := 0 }).coins = 990 ∧
    (applyResult acct0
        { win := false, level := 0, coinsEarned := -10, diamondsEarned := 0 }).totalLosses = 1 ∧
    (applyResult acct0
        { win := false, level := 0, coinsEarned := 0, diamondsEarned := -3 }).diamonds = 7 := by
  refine ⟨?_, ?_, ?_⟩ <;> rfl

/-- C3: the claim that a Draw increments `totalDraws` is false on the code.
The request carries only the boolean `win` (server.js line 273), so a draw
reaches the handler as `win = false` and increments `totalLosses`
(line 285); `totalDraws` is never touched. -/
theorem c3_counterexample :
    (applyResult acct0
        { win := Outcome.draw.asWinFlag, level := 0, coinsEarned := 0,
          diamondsEarned := 0 }).totalDraws = acct0.totalDraws ∧
    (applyResult acct0
        { win := Outcome.draw.asWinFlag, level := 0, coinsEarned := 0,
          diamondsEarned := 0 }).totalLosses = acct0.totalLosses + 1 := by
  refine ⟨?_, ?_⟩ <;> rfl

/-- C3 amended: the game-result update increments exactly one counter —
`totalWins` when `win` is true, `totalLosses` otherwise (so a Draw, which
can only be submitted as a non-win, is counted as a loss) — and
`totalDraws` is never changed. -/
theorem c3_amended (u : Account) (r : GameResult) :
    (applyResult u r).totalWins = u.totalWins + (if r.win then 1 else 0) ∧
    (applyResult u r).totalLosses = u.totalLosses + (if r.win then 0 else 1) ∧
    (applyResult u r).totalDraws = u.totalDraws := by
  rw [applyResult_eq]
  exact ⟨rfl, rfl, rfl⟩

/-- C4: for an account at a valid level (`currentLevel ≥ 1`, as every
registered account is), the game-result update increments `currentLevel` by
exactly 1 on a Win at `levelPlayed = currentLevel` with `currentLevel < 50`,
and leaves it unchanged in every other case (non-win, `levelPlayed`
different from `currentLevel`, or `currentLevel` already 50). -/
theorem c4_level_up_gate (u : Account) (r : GameResult)
    (hpos : 1 ≤ u.currentLevel) :
    ((r.win = true ∧ r.level = u.currentLevel ∧ u.currentLevel < 50) →
      (applyResult u r).currentLevel = u.currentLevel + 1) ∧
    (¬(r.win = true ∧ r.level = u.currentLevel ∧ u.currentLevel < 50) →
      (applyResult u r).currentLevel = u.currentLevel) := by
  rw [applyResult_eq]
  constructor
  · rintro ⟨hw, he, hlt⟩
    show (if r.win = true ∧ 0 < r.level ∧ r.level = u.currentLevel ∧ r.level < 50
          then u.currentLevel + 1 else u.currentLevel) = u.currentLevel + 1
    rw [if_pos ⟨hw, by omega, he, by omega⟩]
  · intro hno
    show (if r.win = true ∧ 0 < r.level ∧ r.level = u.currentLevel ∧ r.level < 50
          then u.currentLevel + 1 else u.currentLevel) = u.currentLevel
    rw [if_neg]
    rintro ⟨hw, -, he, hlt⟩
    exact hno ⟨hw, he, by omega⟩

/-- C4, witnessed: a Win at the current level of a fresh account raises
`currentLevel` from 1 to 2. -/
theorem c4_witness :
    (applyResult acct0
        { win := true, level := 1, coinsEarned := 0, diamondsEarned := 0 }).currentLevel =
      acct0.currentLevel + 1 :=
  (c4_level_up_gate acct0
      { win := true, level := 1, coinsEarned := 0, diamondsEarned := 0 }
      (by decide)).1 (by decide)

/-- C5: the claim holds for the in-memory variant (profile update touches
only the four allow-listed fields), but the Mongo variant's
`findOneAndUpdate(_, { $set: updates })` (server.js lines 490-494) copies
every caller-supplied key onto the record: on a default document a payload
carrying `passwordHash` and `coins` overwrites both, contradicting the
claim for the program as a whole. -/
theorem c5_update_allow_list :
    (∀ (u : Account) (body : List (String × String)),
      (updateProfile u body).userId = u.userId ∧
      (updateProfile u body).passwordHash = u.passwordHash ∧
      (updateProfile u body).coins = u.coins ∧
      (updateProfile u body).diamonds = u.diamonds ∧
      (updateProfile u body).currentLevel = u.currentLevel) ∧
    docGet (mongoUpdateProfile mongoDoc0
        [("displayName", .s "Neo"), ("passwordHash", .s "evil"),
         ("coins", .n 999999)]) "passwordHash" = some (.s "evil") ∧
    docGet (mongoUpdateProfile mongoDoc0
        [("displayName", .s "Neo"), ("passwordHash", .s "evil"),
         ("coins", .n 999999)]) "coins" = some (.n 999999) := by
  refine ⟨fun u body => ?_, by rfl, by rfl⟩
  obtain ⟨h1, -, -, h4, h5, h6, -, -, -, h10, -, -, -, -, -⟩ :=
    updateProfile_frame u body
  exact ⟨h1, h4, h5, h6, h10⟩

/-- C6: on any account whose `currentLevel` is in range (at most 50, as
every reachable account's is), the game-result update never decreases
`highestLevel` and keeps `currentLevel` at most 50. -/
theorem c6_monotone_bounded (u : Account) (r : GameResult)
    (h50 : u.currentLevel ≤ 50) :
    u.highestLevel ≤ (applyResult u r).highestLevel ∧
    (applyResult u r).currentLevel ≤ 50 :=
  ⟨(applyResult_level_bounds u r).1, (applyResult_level_bounds u r).2 h50⟩

/-- C6, witnessed on a concrete win. -/
theorem c6_witness :
    acct0.highestLevel ≤
      (applyResult acct0
        { win := true, level := 7, coinsEarned := 5, diamondsEarned := 5 }).highestLevel ∧
    (applyResult acct0
        { win := true, level := 7, coinsEarned := 5, diamondsEarned := 5 }).currentLevel ≤ 50 :=
  c6_monotone_bounded acct0
    { win := true, level := 7, coinsEarned := 5, diamondsEarned := 5 }
    (by decide)

/-- C7: a token from `issue` validates to its account id at any time up to
`expiresAt = issuedAt + TTL`, fails with `Expired` once the clock passes
`expiresAt`, and fails with `InvalidToken` on a malformed payload or any
signature mismatch (token machinery modelled from the spec; the signing
library is not part of the repository). -/
theorem c7_token_validation (secret accountId email : String)
    (t0 now : Nat) (tok : Token) :
    (now ≤ t0 + tokenTTL →
      validate secret (issue secret accountId email t0) now =
        Except.ok accountId) ∧
    (t0 + tokenTTL < now →
      validate secret (issue secret accountId email t0) now =
        Except.error TokenError.expired) ∧
    (tok.payload = none →
      validate secret tok now = Except.error TokenError.invalidToken) ∧
    (∀ p : TokenPayload, tok.payload = some p → tok.sig ≠ tokenMac secret p →
      validate secret tok now = Except.error TokenError.invalidToken) := by
  refine ⟨fun h => ?_, fun h => ?_, fun h => ?_, fun p hp hs => ?_⟩
  · show (if tokenMac secret _ ≠ tokenMac secret _ then _
          else if t0 + tokenTTL < now then _ else _) = _
    rw [if_neg (by simp), if_neg (by omega)]
  · show (if tokenMac secret _ ≠ tokenMac secret _ then _
          else if t0 + tokenTTL < now then _ else _) = _
    rw [if_neg (by simp), if_pos h]
  · unfold validate
    rw [h]
  · unfold validate
    rw [hp]
    simp only []
    rw [if_pos hs]

/-- C7, witnessed: a concrete token round-trips before expiry, expires
after the TTL, and a malformed or tampered token is rejected. -/
theorem c7_witness :
    validate "k0" (issue "k0" "user-9" "b@x" 1000) 2000 = Except.ok "user-9" ∧
    validate "k0" (issue "k0" "user-9" "b@x" 1000) (1000 + tokenTTL + 1) =
      Except.error TokenError.expired ∧
    validate "k0" { payload := none, sig := 0 } 2000 =
      Except.error TokenError.invalidToken ∧
    validate "k0"
        { payload := some { accountId := "user-9", email := "b@x",
                            issuedAt := 1000, expiresAt := 1000 + tokenTTL },
          sig := tokenMac "k0" { accountId := "user-9", email := "b@x",
                                 issuedAt := 1000,
                                 expiresAt := 1000 + tokenTTL } + 1 } 2000 =
      Except.error TokenError.invalidToken :=
  ⟨(c7_token_validation "k0" "user-9" "b@x" 1000 2000
      { payload := none, sig := 0 }).1 (by decide),
   (c7_token_validation "k0" "user-9" "b@x" 1000 (1000 + tokenTTL + 1)
      { payload := none, sig := 0 }).2.1 (by decide),
   (c7_token_validation "k0" "user-9" "b@x" 1000 2000
      { payload := none, sig := 0 }).2.2.1 rfl,
   (c7_token_validation "k0" "user-9" "b@x" 1000 2000
      { payload := some { accountId := "user-9", email := "b@x",
                          issuedAt := 1000, expiresAt := 1000 + tokenTTL },
        sig := tokenMac "k0" { accountId := "user-9", email := "b@x",
                               issuedAt := 1000,
                               expiresAt := 1000 + tokenTTL } + 1 }).2.2.2
     _ rfl (Nat.succ_ne_self _)⟩

/-- C8: every successful registration returns an account with
`coins = 1000`, `diamonds = 10`, `currentLevel = highestLevel = 1`,
`experiencePoints = 0` and all three counters zero (the literal defaults of
`newUser`, server.js lines 127-155). -/
theorem c8_register_defaults (users : List Account) (rq : RegisterReq)
    (hsh fid : String) (t : Int) (a : Account)
    (h : register users rq hsh fid t = Except.ok a) :
    a.coins = 1000 ∧ a.diamonds = 10 ∧ a.currentLevel = 1 ∧
    a.highestLevel = 1 ∧ a.experiencePoints = 0 ∧ a.totalWins = 0 ∧
    a.totalLosses = 0 ∧ a.totalDraws = 0 := by
  unfold register at h
  split_ifs at h <;>
    first
      | exact Except.noConfusion h
      | (injection h with h; subst h;
         exact ⟨rfl, rfl, rfl, rfl, rfl, rfl, rfl, rfl⟩)

/-- C8, witnessed on a concrete registration. -/
theorem c8_witness :
    acct0.coins = 1000 ∧ acct0.diamonds = 10 ∧ acct0.currentLevel = 1 ∧
    acct0.highestLevel = 1 ∧ acct0.experiencePoints = 0 ∧
    acct0.totalWins = 0 ∧ acct0.totalLosses = 0 ∧ acct0.totalDraws = 0 :=
  c8_register_defaults [] regReq0 "h0" "user-1" 0 acct0 (by rfl)

/-- C9: no response of register, login, profile retrieval or profile update
carries the password hash: the four response literals of the in-memory
variant enumerate their keys and none is `passwordHash`; the Mongo variant
deletes `passwordHash` from the returned object, and the SQL login handler
destructures `password_hash` away — and a deleted key cannot be looked up. -/
theorem c9_password_hash_never_exposed :
    "passwordHash" ∉ loginResponseKeys ∧
    "passwordHash" ∉ registerResponseKeys ∧
    "passwordHash" ∉ profileResponseKeys ∧
    "passwordHash" ∉ updateResponseKeys ∧
    (∀ d : Doc, docGet (docDelete d "passwordHash") "passwordHash" = none) ∧
    (∀ d : Doc, docGet (docDelete d "password_hash") "password_hash" = none) :=
  ⟨by decide, by decide, by decide, by decide,
   fun d => docGet_docDelete d "passwordHash",
   fun d => docGet_docDelete d "password_hash"⟩

/-- C10: the claim's `userId` part is false on the code.  Counterexample:
`userId` does exist on the record (`docHas` is true), and a request body
carrying `userId = "user-999"` together with `currentLevel = 99` arrives at
the stats handler, which destructures `userId` out of the body
(server.js line 512) before its update loop: the record's `userId` keeps
its old value `"user-2"` while `currentLevel` — a genuine stats key — is
overwritten with 99. -/
theorem c10_counterexample :
    docHas mongoDoc0 "userId" = true ∧
    docGet (statsHandlerUpdate mongoDoc0
        [("userId", JVal.s "user-999"), ("currentLevel", JVal.n 99)])
      "userId" = some (JVal.s "user-2") ∧
    docGet (statsHandlerUpdate mongoDoc0
        [("userId", JVal.s "user-999"), ("currentLevel", JVal.n 99)])
      "currentLevel" = some (JVal.n 99) := by
  refine ⟨?_, ?_, ?_⟩ <;> rfl

/-- C10 amended: the stats endpoint writes any caller-supplied value to any
field already present on the record with no allow-list and no range check —
except `userId`, which line 512 destructures out of the body for the lookup
and never writes.  A single-key payload for any other existing field always
lands verbatim, and a concrete payload sets `currentLevel` to 99 (above the
50 cap), `coins` to -5 and even `passwordHash`, while the record's `userId`
keeps its old value. -/
theorem c10_stats_unvalidated_except_userId (d : Doc) (k : String) (v : JVal)
    (hk : k ≠ "userId") (h : docHas d k = true) :
    docGet (statsHandlerUpdate d [(k, v)]) k = some v ∧
    docGet (statsHandlerUpdate mongoDoc0
        [("userId", .s "user-999"), ("currentLevel", .n 99),
         ("coins", .n (-5)), ("passwordHash", .s "pwned")])
      "currentLevel" = some (.n 99) ∧
    docGet (statsHandlerUpdate mongoDoc0
        [("userId", .s "user-999"), ("currentLevel", .n 99),
         ("coins", .n (-5)), ("passwordHash", .s "pwned")])
      "coins" = some (.n (-5)) ∧
    docGet (statsHandlerUpdate mongoDoc0
        [("userId", .s "user-999"), ("currentLevel", .n 99),
         ("coins", .n (-5)), ("passwordHash", .s "pwned")])
      "passwordHash" = some (.s "pwned") ∧
    docGet (statsHandlerUpdate mongoDoc0
        [("userId", .s "user-999"), ("currentLevel", .n 99),
         ("coins", .n (-5)), ("passwordHash", .s "pwned")])
      "userId" = some (.s "user-2") := by
  refine ⟨?_, by rfl, by rfl, by rfl, by rfl⟩
  have hd : docDelete [(k, v)] "userId" = [(k, v)] := by
    simp [docDelete, hk]
  show docGet (applyStats d (docDelete [(k, v)] "userId")) k = some v
  rw [hd]
  show docGet (if docHas d k then docSet d k v else d) k = some v
  rw [if_pos h]
  exact docGet_docSet d k v

/-- C10 amended, witnessed: overwriting `coins` on a concrete document. -/
theorem c10_amended_witness :
    docGet (statsHandlerUpdate mongoDoc0 [("coins", JVal.n (-7))]) "coins" =
      some (JVal.n (-7)) :=
  (c10_stats_unvalidated_except_userId mongoDoc0 "coins" (JVal.n (-7))
    (by decide) (by rfl)).1

end OukChaktrang
